import Mathlib

/-!
Shallow embedding of `src/pymodbus/transport/message.py`.

Bytes are modelled as `List Nat` (each element a byte value 0..255).
Python exceptions raised by the framing code (`struct.error` from
`struct.pack`/`struct.unpack`, `IndexError` from `data[0]` on an empty
buffer, `ValueError` from tuple-unpacking a bytes object that does not
have exactly three elements) are modelled with `Except PyError`.
Mutable framer state (`data_len`, `msg_len`, `dev_id`) is passed
explicitly.
-/

namespace Pymodbus

/-- Python exceptions that the framing code can raise. -/
inductive PyError where
  | structError
  | indexError
  | valueError
deriving DecidableEq, Repr

/-- `FrameType` enumeration from the source. -/
inductive FrameType where
  | RAW
  | ASCII
  | RTU
  | SOCKET
  | TLS
deriving DecidableEq, Repr

/-- The mutable state of a framer object: `is_server`, `data_len`,
`msg_len` and `dev_id`, as initialized by `FrameRaw.__init__` and
inherited unchanged by all subclasses. -/
structure FrameRaw where
  is_server : Bool
  data_len : Nat
  msg_len : Nat
  dev_id : Nat
deriving DecidableEq, Repr

/-- `FrameRaw.__init__`: all counters start at 0. -/
def FrameRaw.init (is_server : Bool) : FrameRaw :=
  ⟨is_server, 0, 0, 0⟩

/-- `FrameRaw.reset`. -/
def FrameRaw.reset (s : FrameRaw) : FrameRaw :=
  { s with data_len := 0, msg_len := 0, dev_id := 0 }

/-- `FrameRaw.MIN_LEN = 5` (header 3 bytes + minimum modbus message 2 bytes). -/
def FrameRaw.MIN_LEN : Nat := 5

/-- Python `struct.unpack(">BH", data)`: the format is exactly 3 bytes, so
the call raises `struct.error` unless `len(data) == 3`; on success it
returns the first byte and the big-endian 16-bit value of the next two. -/
def unpackBH (data : List Nat) : Except PyError (Nat × Nat) :=
  match data with
  | [b0, b1, b2] => Except.ok (b0, b1 * 256 + b2)
  | _ => Except.error PyError.structError

/-- Python `struct.pack(">BH", b, h)`: raises `struct.error` when a value
is out of range for its format code, otherwise emits the byte and the
big-endian 16-bit value. -/
def packBH (b h : Nat) : Except PyError (List Nat) :=
  if b ≤ 255 then
    if h ≤ 65535 then Except.ok [b, h / 256, h % 256]
    else Except.error PyError.structError
  else Except.error PyError.structError

/-- `FrameRaw.verifyFrame`: records `data_len`; returns `False` when the
buffer is shorter than `MIN_LEN`; otherwise unpacks `">BH"` from the whole
buffer (which raises `struct.error` whenever `len(data) != 3`), then
compares `data_len` against `msg_len + MIN_LEN`. -/
def FrameRaw.verifyFrame (s : FrameRaw) (data : List Nat) :
    Except PyError (FrameRaw × Bool) :=
  let s1 := { s with data_len := data.length }
  if s1.data_len < FrameRaw.MIN_LEN then Except.ok (s1, false)
  else
    match unpackBH data with
    | Except.error e => Except.error e
    | Except.ok (d, m) =>
      let s2 := { s1 with dev_id := d, msg_len := m }
      if s2.data_len < s2.msg_len + FrameRaw.MIN_LEN then Except.ok (s2, false)
      else Except.ok (s2, true)

/-- `FrameRaw.build`: `struct.pack(">BH", dev_id, len(data)) + data`. -/
def FrameRaw.build (dev_id : Nat) (data : List Nat) :
    Except PyError (List Nat) :=
  match packBH dev_id data.length with
  | Except.error e => Except.error e
  | Except.ok header => Except.ok (header ++ data)

/-- `FrameRaw.getMessage`: the slice `data[MIN_LEN : MIN_LEN + msg_len]`. -/
def FrameRaw.getMessage (s : FrameRaw) (data : List Nat) : List Nat :=
  (data.drop FrameRaw.MIN_LEN).take s.msg_len

/-- `FrameAscii.min_len` class attribute. -/
def FrameAscii.min_len : Nat := 9

/-- `FrameAscii.verifyFrame`: `self.dev_id = data[0]; return True`
(`data[0]` raises `IndexError` on an empty buffer). -/
def FrameAscii.verifyFrame (s : FrameRaw) (data : List Nat) :
    Except PyError (FrameRaw × Bool) :=
  match data with
  | [] => Except.error PyError.indexError
  | b :: _ => Except.ok ({ s with dev_id := b }, true)

/-- `FrameAscii.build`: returns `data` unchanged. -/
def FrameAscii.build (_dev_id : Nat) (data : List Nat) : List Nat := data

/-- `FrameRTU.min_len` class attribute. -/
def FrameRTU.min_len : Nat := 4

/-- `FrameRTU.verifyFrame`: identical body to `FrameAscii.verifyFrame`. -/
def FrameRTU.verifyFrame (s : FrameRaw) (data : List Nat) :
    Except PyError (FrameRaw × Bool) :=
  match data with
  | [] => Except.error PyError.indexError
  | b :: _ => Except.ok ({ s with dev_id := b }, true)

/-- `FrameRTU.build`: returns `data` unchanged. -/
def FrameRTU.build (_dev_id : Nat) (data : List Nat) : List Nat := data

/-- `FrameSocket.min_len` class attribute. -/
def FrameSocket.min_len : Nat := 9

/-- `FrameSocket.verifyFrame`: identical body to `FrameAscii.verifyFrame`. -/
def FrameSocket.verifyFrame (s : FrameRaw) (data : List Nat) :
    Except PyError (FrameRaw × Bool) :=
  match data with
  | [] => Except.error PyError.indexError
  | b :: _ => Except.ok ({ s with dev_id := b }, true)

/-- `FrameSocket.build`: returns `data` unchanged. -/
def FrameSocket.build (_dev_id : Nat) (data : List Nat) : List Nat := data

/-- `FrameTLS.min_len` class attribute. -/
def FrameTLS.min_len : Nat := 2

/-- `FrameTLS.verifyFrame`: identical body to `FrameAscii.verifyFrame`. -/
def FrameTLS.verifyFrame (s : FrameRaw) (data : List Nat) :
    Except PyError (FrameRaw × Bool) :=
  match data with
  | [] => Except.error PyError.indexError
  | b :: _ => Except.ok ({ s with dev_id := b }, true)

/-- `FrameTLS.build`: returns `data` unchanged. -/
def FrameTLS.build (_dev_id : Nat) (data : List Nat) : List Nat := data

/-- A `ModbusMessage` instance: the chosen frame type, the `dev_ids`
accept list (`none` models Python `None`), and the framer state. -/
structure ModbusMessage where
  frameType : FrameType
  dev_ids : Option (List Nat)
  framer : FrameRaw
deriving DecidableEq, Repr

/-- Dynamic dispatch of `self.framer.verifyFrame(data)`. -/
def ModbusMessage.verifyFrame (m : ModbusMessage) (data : List Nat) :
    Except PyError (FrameRaw × Bool) :=
  match m.frameType with
  | FrameType.RAW => FrameRaw.verifyFrame m.framer data
  | FrameType.ASCII => FrameAscii.verifyFrame m.framer data
  | FrameType.RTU => FrameRTU.verifyFrame m.framer data
  | FrameType.SOCKET => FrameSocket.verifyFrame m.framer data
  | FrameType.TLS => FrameTLS.verifyFrame m.framer data

/-- Result of one `callback_data` call: the framer state after the call,
the returned value, and the upward `callback_message(dev_id, req_resp)`
call if one was made. -/
structure IngestResult where
  framer : FrameRaw
  used_len : Nat
  upcall : Option (Nat × Nat)
deriving DecidableEq, Repr

/-- `ModbusMessage.callback_data`: returns 0 when `verifyFrame` is false;
otherwise evaluates `dev_id, req_resp, used_len = self.framer.getMessage(data)`.
`getMessage` (inherited from `FrameRaw` by every framer) returns a bytes
slice, so this tuple-unpacking raises `ValueError` unless the slice has
exactly three bytes; when it has, the three bytes are bound in order.
Then the accept list is consulted (`if self.dev_ids and dev_id not in
self.dev_ids` skips the upward call) and `used_len` is returned. -/
def ModbusMessage.callback_data (m : ModbusMessage) (data : List Nat) :
    Except PyError IngestResult :=
  match m.verifyFrame data with
  | Except.error e => Except.error e
  | Except.ok (s, false) => Except.ok ⟨s, 0, none⟩
  | Except.ok (s, true) =>
    match FrameRaw.getMessage s data with
    | [d, r, u] =>
      match m.dev_ids with
      | some ids =>
        if ids ≠ [] ∧ d ∉ ids then Except.ok ⟨s, u, none⟩
        else Except.ok ⟨s, u, some (d, r)⟩
      | none => Except.ok ⟨s, u, some (d, r)⟩
    | _ => Except.error PyError.valueError

/-- `ModbusMessage.message_send`: `send_data = self.framer.build(dev_id, data)`
followed by `transport_send(send_data)`; the `ok` value is the byte
sequence handed to the transport, an `error` means the exception
propagated to the caller and nothing was transmitted. -/
def ModbusMessage.message_send (m : ModbusMessage) (dev_id : Nat)
    (data : List Nat) : Except PyError (List Nat) :=
  match m.frameType with
  | FrameType.RAW => FrameRaw.build dev_id data
  | FrameType.ASCII => Except.ok (FrameAscii.build dev_id data)
  | FrameType.RTU => Except.ok (FrameRTU.build dev_id data)
  | FrameType.SOCKET => Except.ok (FrameSocket.build dev_id data)
  | FrameType.TLS => Except.ok (FrameTLS.build dev_id data)

/-- Modelled from the spec: one step of CRC-16/Modbus (reflected
polynomial 0xA001), processing one byte: xor the byte into the low byte
of the running value, then eight shift/conditional-xor rounds. The
CRC computation itself is absent from the source. -/
def crc16_step (crc b : Nat) : Nat :=
  (List.range 8).foldl
    (fun c _ => if c % 2 = 1 then (c / 2) ^^^ 0xA001 else c / 2)
    (crc ^^^ b)

/-- Modelled from the spec: CRC-16/Modbus over a byte sequence, initial
value 0xFFFF. -/
def crc16 (data : List Nat) : Nat :=
  data.foldl crc16_step 0xFFFF

/-- Modelled from the spec: the ASCII LRC is the two's-complement, mod
256, of the sum of all preceding decoded bytes. The LRC computation is
absent from the source. -/
def lrc (data : List Nat) : Nat :=
  (256 - (data.foldl (fun a b => a + b) 0) % 256) % 256

/-- The ASCII bytes of the spec scenario string, colon then the
characters 0 1 0 2 0 3 F 2 then CR LF. -/
def asciiScenario : List Nat := [58, 48, 49, 48, 50, 48, 51, 70, 50, 13, 10]

/-- An RTU frame for address 1, function 1, no data, carrying the correct
CRC-16/Modbus value transmitted low byte first. -/
def rtuValidFrame : List Nat := [1, 1, 193, 224]

/-- `rtuValidFrame` with bit 0 of its CRC low byte flipped, so its
trailing CRC no longer matches. -/
def rtuFlippedFrame : List Nat := [1, 1, 192, 224]

/-- The payload used to exercise the oversized-payload send path: 65536
zero bytes, one more than the 16-bit length field can hold. -/
def bigPayload : List Nat := List.replicate 65536 0

/-- Claim C1: the spec says decoding the bytes produced by `build` yields
back `(device_id, payload)`; on the code this fails. `FrameRaw.build 1 [4, 5]`
produces the five bytes `[1, 0, 2, 4, 5]`, but `FrameRaw.verifyFrame` on
those bytes raises `struct.error` (it unpacks a 3-byte format from the
whole 5-byte buffer), so `getMessage` is never reached; and for the
Socket framer `build` returns the payload unchanged, so decoding
`FrameSocket.build 5 [2, 3, 4]` reports the first payload byte 2 as the
device id instead of 5. -/
theorem C1_raw_roundtrip_fails :
    FrameRaw.build 1 [4, 5] = Except.ok [1, 0, 2, 4, 5] ∧
    FrameRaw.verifyFrame (FrameRaw.init false) [1, 0, 2, 4, 5]
      = Except.error PyError.structError ∧
    FrameSocket.build 5 [2, 3, 4] = [2, 3, 4] ∧
    FrameSocket.verifyFrame (FrameRaw.init false) [2, 3, 4]
      = Except.ok ({ FrameRaw.init false with dev_id := 2 }, true) := by
  refine ⟨rfl, rfl, rfl, rfl⟩

/-- Claim C2: the spec scenario requires the MBAP bytes
`00 01 00 00 00 03 01 02 03` to decode to device id 1, payload `02 03`,
consumed 9, and `build` to reproduce them. On the code,
`FrameSocket.verifyFrame` reports device id 0 (the first buffer byte,
which is the transaction id high byte), `FrameSocket.build 1 [2, 3]`
returns just `[2, 3]`, and `callback_data` on the buffer raises
`ValueError` (tuple-unpacking the empty `getMessage` slice). -/
theorem C2_socket_scenario_fails :
    FrameSocket.verifyFrame (FrameRaw.init true) [0, 1, 0, 0, 0, 3, 1, 2, 3]
      = Except.ok ({ FrameRaw.init true with dev_id := 0 }, true) ∧
    FrameSocket.build 1 [2, 3] = [2, 3] ∧
    ([2, 3] : List Nat) ≠ [0, 1, 0, 0, 0, 3, 1, 2, 3] ∧
    (ModbusMessage.mk FrameType.SOCKET none (FrameRaw.init true)).callback_data
        [0, 1, 0, 0, 0, 3, 1, 2, 3]
      = Except.error PyError.valueError := by
  refine ⟨rfl, rfl, by decide, rfl⟩

/-- Claim C3: the spec says the RTU codec recomputes the CRC-16 and
rejects a frame whose trailing bytes do not match. On the code,
`FrameRTU.verifyFrame` accepts every non-empty buffer: the frame
`[1, 1, 193, 224]` carries the correct CRC (crc16 of `[1, 1]` is
193 + 256 * 224), and flipping one bit of the CRC low byte gives
`[1, 1, 192, 224]` whose CRC no longer matches, yet `verifyFrame` still
returns `True` for it — no CRC is computed or compared anywhere. -/
theorem C3_rtu_crc_not_checked :
    crc16 [1, 1] = 193 + 256 * 224 ∧
    crc16 [1, 1] ≠ 192 + 256 * 224 ∧
    FrameRTU.verifyFrame (FrameRaw.init true) rtuValidFrame
      = Except.ok ({ FrameRaw.init true with dev_id := 1 }, true) ∧
    FrameRTU.verifyFrame (FrameRaw.init true) rtuFlippedFrame
      = Except.ok ({ FrameRaw.init true with dev_id := 1 }, true) := by
  refine ⟨by decide, by decide, rfl, rfl⟩

/-- Claim C4: the spec says `ingest` always returns a consumed count
without raising, returning 0 on buffers shorter than the minimum length.
On the code, `callback_data` with the Socket framer raises `ValueError`
on a 1-byte buffer (shorter than `min_len = 9`), and with the Raw framer
raises `struct.error` on any buffer of length at least 5. -/
theorem C4_ingest_raises :
    (ModbusMessage.mk FrameType.SOCKET none (FrameRaw.init true)).callback_data [0]
      = Except.error PyError.valueError ∧
    (ModbusMessage.mk FrameType.RAW none (FrameRaw.init true)).callback_data
        [0, 0, 0, 0, 0]
      = Except.error PyError.structError ∧
    (ModbusMessage.mk FrameType.ASCII none (FrameRaw.init true)).callback_data []
      = Except.error PyError.indexError := by
  refine ⟨rfl, rfl, rfl⟩

/-- Claim C5: the spec says that on a buffer of k garbage bytes followed
by a valid frame, repeated `ingest` advances past the garbage (each
Invalid result skipping at least 1 byte) and decodes the frame. On the
code, the very first `callback_data` call on one garbage byte followed
by the frame built by `FrameRaw.build 1 [2, 3]` raises `struct.error`,
so no skip count is ever produced and the frame is never decoded. -/
theorem C5_resync_never_happens :
    FrameRaw.build 1 [2, 3] = Except.ok [1, 0, 2, 2, 3] ∧
    (ModbusMessage.mk FrameType.RAW none (FrameRaw.init false)).callback_data
        ([255] ++ [1, 0, 2, 2, 3])
      = Except.error PyError.structError := by
  refine ⟨rfl, rfl⟩

/-- Claim C6: the spec says a complete Raw frame is 3 + declared_length
bytes and the payload is the declared bytes right after the 3-byte
header. On the code, the buffer `[1, 0, 2, 7, 8]` (device 1, declared
length 2, payload `[7, 8]`, exactly 3 + 2 = 5 bytes) makes `verifyFrame`
raise `struct.error`; and even with `msg_len` set to the declared 2,
`getMessage` slices from offset `MIN_LEN = 5`, not 3, returning `[]`
instead of `[7, 8]`. -/
theorem C6_raw_layout_mismatch :
    FrameRaw.verifyFrame (FrameRaw.init false) [1, 0, 2, 7, 8]
      = Except.error PyError.structError ∧
    FrameRaw.getMessage { FrameRaw.init false with msg_len := 2 } [1, 0, 2, 7, 8]
      = [] ∧
    ([] : List Nat) ≠ [7, 8] := by
  refine ⟨rfl, rfl, by decide⟩

/-- Claim C7: the spec says the ASCII input `:010203F2 CR LF` is accepted
iff F2 equals the LRC of the decoded bytes 01 02 03. The correct LRC is
250 = 0xFA, not 0xF2 = 242, so the claim requires rejection; but
`FrameAscii.verifyFrame` accepts the buffer (it accepts every non-empty
buffer, reporting the colon byte 58 as the device id, with no hex
decoding and no LRC computation). -/
theorem C7_ascii_lrc_not_checked :
    lrc [1, 2, 3] = 250 ∧
    (250 : Nat) ≠ 242 ∧
    FrameAscii.verifyFrame (FrameRaw.init true) asciiScenario
      = Except.ok ({ FrameRaw.init true with dev_id := 58 }, true) := by
  refine ⟨by decide, by decide, rfl⟩

/-- Claim C8: the spec says a decoded frame whose device id is outside a
non-empty accept list is dropped without an upward call while `ingest`
still returns the consumed count, and an accepted id produces exactly one
upward call. On the code, the accept-list branch is unreachable: for the
9-byte MBAP frame (whether its addressee is in the list `[1, 2]` or, with
first byte 3, outside it) `callback_data` raises `ValueError` while
tuple-unpacking the empty `getMessage` slice, before filtering and before
any return value. -/
theorem C8_accept_list_unreachable :
    (ModbusMessage.mk FrameType.SOCKET (some [1, 2]) (FrameRaw.init true)).callback_data
        [0, 1, 0, 0, 0, 3, 1, 2, 3]
      = Except.error PyError.valueError ∧
    (ModbusMessage.mk FrameType.SOCKET (some [1, 2]) (FrameRaw.init true)).callback_data
        [3, 1, 0, 0, 0, 3, 1, 2, 3]
      = Except.error PyError.valueError := by
  refine ⟨rfl, rfl⟩

/-- Claim C9: sending a Raw payload longer than 65535 bytes fails loudly.
`FrameRaw.build` calls `struct.pack(">BH", dev_id, len(data))`, which
raises `struct.error` for any length over 65535 (and for any out-of-range
device id), so `message_send` propagates the error and hands nothing to
the transport. -/
theorem C9_send_oversized_payload_fails (m : ModbusMessage) (dev_id : Nat)
    (data : List Nat) (hT : m.frameType = FrameType.RAW)
    (hL : 65535 < data.length) :
    m.message_send dev_id data = Except.error PyError.structError := by
  have h2 : ¬ data.length ≤ 65535 := by omega
  unfold ModbusMessage.message_send
  rw [hT]
  unfold FrameRaw.build packBH
  by_cases hb : dev_id ≤ 255
  · simp [hb, h2]
  · simp [hb]

/-- Witness for C9 at a concrete input: a Raw-framed message layer, device
id 1, and a payload of 65536 zero bytes. -/
theorem C9_send_oversized_payload_fails_witness :
    (ModbusMessage.mk FrameType.RAW none (FrameRaw.init false)).frameType
        = FrameType.RAW ∧
    65535 < bigPayload.length ∧
    (ModbusMessage.mk FrameType.RAW none (FrameRaw.init false)).message_send 1 bigPayload
      = Except.error PyError.structError := by
  have hlen : bigPayload.length = 65536 := List.length_replicate 65536 0
  have hL : 65535 < bigPayload.length := by omega
  exact ⟨rfl, hL, C9_send_oversized_payload_fails _ 1 bigPayload rfl hL⟩

/-- Claim C10: every non-Raw framer (`Ascii`, `RTU`, `Socket`, `TLS`) has
a `verifyFrame` that returns `True` on every non-empty buffer, storing
the first byte as the device id, and a `build` that returns the payload
unchanged, with no header, trailer, checksum, length field or
validation. -/
theorem C10_nonraw_codecs_trivial (s : FrameRaw) (b : Nat) (rest : List Nat)
    (dev : Nat) (payload : List Nat) :
    FrameAscii.verifyFrame s (b :: rest)
      = Except.ok ({ s with dev_id := b }, true) ∧
    FrameRTU.verifyFrame s (b :: rest)
      = Except.ok ({ s with dev_id := b }, true) ∧
    FrameSocket.verifyFrame s (b :: rest)
      = Except.ok ({ s with dev_id := b }, true) ∧
    FrameTLS.verifyFrame s (b :: rest)
      = Except.ok ({ s with dev_id := b }, true) ∧
    FrameAscii.build dev payload = payload ∧
    FrameRTU.build dev payload = payload ∧
    FrameSocket.build dev payload = payload ∧
    FrameTLS.build dev payload = payload := by
  refine ⟨rfl, rfl, rfl, rfl, rfl, rfl, rfl, rfl⟩

end Pymodbus
